import Mathlib

/-!
Verification of the GWAS association filter (risk-scoring/scripts/query_gwas.py).

The module under analysis filters a GWAS association file (.parquet or .duckdb)
for a list of rsid identifiers.  We give a shallow embedding: a table is a
column-name list together with rows represented as association lists from
column name to cell value (cells are modelled as strings; only the rsid cells
are ever compared, and the source compares them by exact string equality).
The filesystem environment supplies the existence bit for the path, the result
of pandas read_parquet, and the duckdb table listing.  Errors are the exact
message strings the source raises via GWASQueryError.
-/

/-- One data row: an association list from column name to cell value. -/
abbrev Row : Type := List (String × String)

/-- A dataframe or database table: ordered column names plus rows. -/
structure Table where
  columns : List String
  rows : List Row
deriving DecidableEq, Repr

/-- The fixed 17-column schema from query_gwas.py (REQUIRED_COLUMNS). -/
def REQUIRED_COLUMNS : List String :=
  ["rsid", "risk_allele", "pvalue", "beta", "trait", "trait_uri", "study_id",
   "mapped_gene", "upstream_gene_id", "downstream_gene_id", "snp_gene_ids",
   "chr", "chr_pos", "context", "is_intergenic", "risk_allele_freq", "ci_95_text"]

/-- ASCII lower-casing of a string, as Python str.lower acts on the
extension strings the source feeds it. -/
def strLower (s : String) : String :=
  String.mk (s.toList.map Char.toLower)

/-- The extension part of os.path.splitext: the suffix from the last dot of
the basename, provided some earlier character of the basename is not a dot
(CPython genericpath._splitext with sep = slash, extsep = dot). -/
def splitextExt (p : String) : String :=
  let cs := p.toList
  let sepIdx : Int :=
    match cs.reverse.findIdx? (fun c => c == '/') with
    | some i => (cs.length : Int) - 1 - i
    | none => -1
  let dotIdx : Int :=
    match cs.reverse.findIdx? (fun c => c == '.') with
    | some i => (cs.length : Int) - 1 - i
    | none => -1
  if sepIdx < dotIdx then
    let nameStart := (sepIdx + 1).toNat
    let dotN := dotIdx.toNat
    if ((cs.drop nameStart).take (dotN - nameStart)).any (fun c => c != '.') then
      String.mk (cs.drop dotN)
    else ""
  else ""

/-- The environment a call runs in: whether gwas_path exists, what
pandas read_parquet would return for it, and the duckdb table listing
(name, table) in SHOW TABLES order. -/
structure FileSys where
  pathExists : Bool
  parquetRead : Except String Table
  duckdbTables : List (String × Table)

/-- Batch size of the chunked INSERT into the temp table (chunk_size = 50000). -/
def chunk_size : Nat := 50000

/-- Fuel-driven slicing worker: Python range(0, len(l), chunk_size) slices.
With fuel at least the list length the fuel never runs out; the fuel-exhausted
case returns the remainder as one chunk so that joining always restores l. -/
def chunksAux : Nat → List String → List (List String)
  | _, [] => []
  | 0, l => [l]
  | fuel + 1, l => l.take chunk_size :: chunksAux fuel (l.drop chunk_size)

/-- The successive chunks the source INSERTs into the filter_rsid temp table. -/
def chunkRsids (l : List String) : List (List String) :=
  chunksAux l.length l

/-- Table-name resolution (lines 60-66): prefer associations_clean, else the
first listed table, else the NoTablesFound message. -/
def resolveTable (tables : List (String × Table)) : Except String Table :=
  match tables.lookup "associations_clean" with
  | some t => Except.ok t
  | none =>
    match tables with
    | [] => Except.error "No tables found in DuckDB file."
    | (_, t) :: _ => Except.ok t

/-- Message duckdb produces when the join references the absent rsid column. -/
def binder_error_msg : String :=
  "Binder Error: Referenced column rsid not found in FROM clause"

/-- Multiset semantics of SELECT a.* FROM t a INNER JOIN filter_rsid f ON
a.rsid = f.rsid: each table row paired with every matching temp-table entry. -/
def duckdbJoinRows (rows : List Row) (temp : List String) : List Row :=
  rows.flatMap (fun r => (temp.filter (fun v => r.lookup "rsid" == some v)).map (fun _ => r))

/-- Executing the join query: fails like duckdb when the resolved table has no
rsid column, otherwise returns all of the table's columns and the join rows. -/
def duckdbExecJoin (t : Table) (temp : List String) : Except String Table :=
  if t.columns.contains "rsid" then
    Except.ok { columns := t.columns, rows := duckdbJoinRows t.rows temp }
  else
    Except.error binder_error_msg

/-- Outcome of the duckdb block (lines 58-82) plus whether con.close() ran
before control left the block.  The source has no try/finally: close is only
reached on the success path, after the join query returns. -/
structure DuckResult where
  result : Except String Table
  connClosed : Bool
deriving Repr

/-- The duckdb backend body: resolve the table, build the temp table from the
chunked inserts, run the join; con.close() executes only after a successful
join, so every raising path leaves the connection open. -/
def duckdbQueryTraced (tables : List (String × Table)) (ids : List String) : DuckResult :=
  match resolveTable tables with
  | Except.error e => { result := Except.error e, connClosed := false }
  | Except.ok t =>
    match duckdbExecJoin t ((chunkRsids ids).flatten) with
    | Except.error e => { result := Except.error e, connClosed := false }
    | Except.ok df => { result := Except.ok df, connClosed := true }

/-- Row test of df.rsid.isin(set(rsid_list)): the rsid cell is present and a
member of the identifier list (set membership is list membership). -/
def rowMatches (ids : List String) (r : Row) : Bool :=
  match r.lookup "rsid" with
  | some v => ids.contains v
  | none => false

/-- The in-memory parquet filter df[df.rsid.isin(rsid_set)] (lines 94-97). -/
def parquetFilter (t : Table) (ids : List String) : Table :=
  { columns := t.columns, rows := t.rows.filter (rowMatches ids) }

/-- The columns the validation step reports as absent. -/
def missingColumns (t : Table) : List String :=
  REQUIRED_COLUMNS.filter (fun c => !(t.columns.contains c))

/-- df[[col for col in REQUIRED_COLUMNS]] on one row: project the row onto the
given column list in the given order (all names are present whenever the
source reaches this step, so the default cell is never produced there). -/
def selectRow (cols : List String) (r : Row) : Row :=
  cols.map (fun c => (c, (r.lookup c).getD ""))

/-- Column projection and reordering of a whole table (line 100). -/
def selectColumns (cols : List String) (t : Table) : Table :=
  { columns := cols, rows := t.rows.map (selectRow cols) }

/-- Everything after the extension has been computed (lines 45-101). -/
def query_gwas_ext (fs : FileSys) (ext : String) (rsid_list : List String) :
    Except String Table :=
  if ([".parquet", ".duckdb"].contains ext) = false then
    Except.error ("Unsupported file type: " ++ ext ++
      ". Only .parquet and .duckdb are supported.")
  else if rsid_list.isEmpty then
    Except.ok { columns := REQUIRED_COLUMNS, rows := [] }
  else
    match (if ext = ".parquet" then fs.parquetRead
           else (duckdbQueryTraced fs.duckdbTables rsid_list).result) with
    | Except.error e => Except.error ("Failed to load GWAS file: " ++ e)
    | Except.ok df =>
      if (missingColumns df).isEmpty = false then
        Except.error ("Missing required columns: " ++
          String.intercalate ", " (missingColumns df))
      else
        Except.ok (selectColumns REQUIRED_COLUMNS
          (if ext = ".parquet" then parquetFilter df rsid_list else df))

/-- query_gwas(gwas_path, rsid_list): existence check, then extension
dispatch on strLower(splitext(path)). -/
def query_gwas (fs : FileSys) (gwas_path : String) (rsid_list : List String) :
    Except String Table :=
  if fs.pathExists = false then
    Except.error ("File does not exist: " ++ gwas_path)
  else
    query_gwas_ext fs (strLower (splitextExt gwas_path)) rsid_list

/-- Rows of a successful result; an error has no rows. -/
def resultRows : Except String Table → List Row
  | Except.ok t => t.rows
  | Except.error _ => []

/-- How many rows of the list carry the given rsid value. -/
def rowsWithRsid (rows : List Row) (v : String) : Nat :=
  rows.countP (fun r => r.lookup "rsid" == some v)

/-- Occurrence count of an identifier in an identifier list. -/
def occ (l : List String) (v : String) : Nat :=
  (l.filter (fun x => v == x)).length

/-- Error-category predicates, one per row of the error table in the spec,
keyed on the message formats produced by the source. -/
def isNotFoundMsg (m : String) : Bool :=
  ("File does not exist: ").toList.isPrefixOf m.toList

def isUnsupportedFormatMsg (m : String) : Bool :=
  ("Unsupported file type: ").toList.isPrefixOf m.toList

def isLoadFailureMsg (m : String) : Bool :=
  ("Failed to load GWAS file: ").toList.isPrefixOf m.toList

def isMissingColumnsMsg (m : String) : Bool :=
  ("Missing required columns: ").toList.isPrefixOf m.toList

def isNoTablesFoundMsg (m : String) : Bool :=
  m == "No tables found in DuckDB file."

/-- A sample well-formed row carrying the given rsid value. -/
def sampleRow (v : String) : Row :=
  REQUIRED_COLUMNS.map (fun c => (c, if c == "rsid" then v else "x"))

/-- A sample table with the full schema and rows rs1, rs2. -/
def sampleTable : Table :=
  { columns := REQUIRED_COLUMNS, rows := [sampleRow "rs1", sampleRow "rs2"] }

/-- A table whose rsid column was dropped. -/
def tableNoRsid : Table :=
  { columns := REQUIRED_COLUMNS.drop 1,
    rows := [(REQUIRED_COLUMNS.drop 1).map (fun c => (c, "x"))] }

/-- A table that has rsid but is missing the last required column. -/
def tableMissLast : Table :=
  { columns := REQUIRED_COLUMNS.take 16, rows := [(REQUIRED_COLUMNS.take 16).map (fun c => (c, "x"))] }

/-- Environment whose parquet content and single duckdb table are both t. -/
def fsOf (t : Table) : FileSys :=
  { pathExists := true, parquetRead := Except.ok t,
    duckdbTables := [("associations_clean", t)] }

theorem isEmpty_false_of_ne_nil {α : Type} (l : List α) (h : l ≠ []) :
    l.isEmpty = false := by
  cases l with
  | nil => exact absurd rfl h
  | cons a l => rfl

theorem chunksAux_flatten : ∀ (fuel : Nat) (l : List String),
    (chunksAux fuel l).flatten = l := by
  intro fuel
  induction fuel with
  | zero =>
    intro l
    cases l with
    | nil => rfl
    | cons a l => simp [chunksAux]
  | succ n ih =>
    intro l
    cases l with
    | nil => rfl
    | cons a l => simp [chunksAux, ih]

theorem chunkRsids_flatten (l : List String) : (chunkRsids l).flatten = l :=
  chunksAux_flatten l.length l

theorem chunksAux_ne_nil (fuel : Nat) (l : List String) (h : l ≠ []) :
    chunksAux fuel l ≠ [] := by
  cases fuel with
  | zero =>
    cases l with
    | nil => exact absurd rfl h
    | cons a l => simp [chunksAux]
  | succ n =>
    cases l with
    | nil => exact absurd rfl h
    | cons a l => simp [chunksAux]

theorem chunksAux_mem_bound : ∀ (fuel : Nat) (l : List String), l.length ≤ fuel →
    ∀ c ∈ chunksAux fuel l, c.length ≤ chunk_size ∧ c ≠ [] := by
  intro fuel
  induction fuel with
  | zero =>
    intro l hl c hc
    have : l = [] := List.eq_nil_of_length_eq_zero (Nat.le_zero.mp hl)
    subst this
    simp [chunksAux] at hc
  | succ n ih =>
    intro l hl c hc
    cases l with
    | nil => simp [chunksAux] at hc
    | cons a as =>
      simp only [chunksAux, List.mem_cons] at hc
      rcases hc with hc | hc
      · subst hc
        constructor
        · rw [List.length_take]
          exact Nat.min_le_left _ _
        · simp [chunk_size]
      · refine ih ((a :: as).drop chunk_size) ?_ c hc
        have hcs : chunk_size = 50000 := rfl
        rw [List.length_drop]
        simp only [List.length_cons] at hl ⊢
        omega

theorem chunksAux_two_le (fuel : Nat) (l : List String) (hl : l.length ≤ fuel)
    (hbig : chunk_size < l.length) : 2 ≤ (chunksAux fuel l).length := by
  have hcs : chunk_size = 50000 := rfl
  cases fuel with
  | zero => omega
  | succ n =>
    cases l with
    | nil => simp at hbig
    | cons a as =>
      simp only [List.length_cons] at hbig
      have hdrop : (a :: as).drop chunk_size ≠ [] := by
        have h2 : 0 < ((a :: as).drop chunk_size).length := by
          rw [List.length_drop]
          simp only [List.length_cons]
          omega
        exact List.ne_nil_of_length_pos h2
      have h3 : 0 < (chunksAux n ((a :: as).drop chunk_size)).length :=
        List.length_pos.mpr (chunksAux_ne_nil n _ hdrop)
      show 2 ≤ ((a :: as).take chunk_size :: chunksAux n ((a :: as).drop chunk_size)).length
      simp only [List.length_cons]
      omega

theorem query_parquet_reduce (fs : FileSys) (ids : List String) (t : Table)
    (hp : fs.pathExists = true) (hr : fs.parquetRead = Except.ok t) (hids : ids ≠ []) :
    query_gwas fs "g.parquet" ids =
      if (missingColumns t).isEmpty = false then
        Except.error ("Missing required columns: " ++
          String.intercalate ", " (missingColumns t))
      else
        Except.ok (selectColumns REQUIRED_COLUMNS (parquetFilter t ids)) := by
  have he : strLower (splitextExt "g.parquet") = ".parquet" := rfl
  have hc : ([".parquet", ".duckdb"].contains ".parquet") = true := rfl
  simp [query_gwas, query_gwas_ext, hp, hr, he, hc, isEmpty_false_of_ne_nil ids hids]

theorem query_duckdb_reduce (fs : FileSys) (ids : List String) (t : Table)
    (hp : fs.pathExists = true) (htab : fs.duckdbTables = [("associations_clean", t)])
    (hids : ids ≠ []) (hrs : t.columns.contains "rsid" = true) :
    query_gwas fs "g.duckdb" ids =
      if (missingColumns t).isEmpty = false then
        Except.error ("Missing required columns: " ++
          String.intercalate ", " (missingColumns t))
      else
        Except.ok (selectColumns REQUIRED_COLUMNS
          { columns := t.columns, rows := duckdbJoinRows t.rows ids }) := by
  have he : strLower (splitextExt "g.duckdb") = ".duckdb" := rfl
  have hc : ([".parquet", ".duckdb"].contains ".duckdb") = true := rfl
  have hres : resolveTable [("associations_clean", t)] = Except.ok t := rfl
  have hmem : "rsid" ∈ t.columns := by simpa using hrs
  simp [query_gwas, query_gwas_ext, hp, htab, he, hc, isEmpty_false_of_ne_nil ids hids,
    duckdbQueryTraced, hres, duckdbExecJoin, hrs, hmem, chunkRsids_flatten, missingColumns]

theorem lookup_selectRow_rsid (r : Row) (v : String) (h : r.lookup "rsid" = some v) :
    (selectRow REQUIRED_COLUMNS r).lookup "rsid" = some v := by
  simp [selectRow, REQUIRED_COLUMNS, List.lookup, h]

theorem selectRows_count (rows : List Row) (v : String)
    (h : ∀ r ∈ rows, (r.lookup "rsid").isSome = true) :
    rowsWithRsid (rows.map (selectRow REQUIRED_COLUMNS)) v = rowsWithRsid rows v := by
  induction rows with
  | nil => rfl
  | cons r rs ih =>
    have hr : (r.lookup "rsid").isSome = true := h r (List.mem_cons_self r rs)
    obtain ⟨w, hw⟩ := Option.isSome_iff_exists.mp hr
    have hsel := lookup_selectRow_rsid r w hw
    have ih2 := ih (fun x hx => h x (List.mem_cons_of_mem r hx))
    simp only [rowsWithRsid, List.map_cons, List.countP_cons] at ih2 ⊢
    rw [hsel, hw, ih2]

theorem filter_count_of_mem (rows : List Row) (ids : List String) (v : String)
    (hv : v ∈ ids) :
    rowsWithRsid (rows.filter (rowMatches ids)) v = rowsWithRsid rows v := by
  induction rows with
  | nil => rfl
  | cons r rs ih =>
    simp only [rowsWithRsid] at ih ⊢
    cases hmb : rowMatches ids r with
    | true =>
      simp only [List.filter_cons, hmb, if_true, List.countP_cons, ih]
    | false =>
      have hpred : ((r.lookup "rsid" == some v)) = false := by
        cases hl : r.lookup "rsid" with
        | none => rfl
        | some w =>
          by_cases hwv : w = v
          · subst hwv
            have ht : rowMatches ids r = true := by simp [rowMatches, hl, hv]
            rw [hmb] at ht
            exact Bool.noConfusion ht
          · simp [hwv]
      simp [List.filter_cons, hmb, hpred, ih]

theorem countP_const_map {α β : Type} (l : List α) (b : β) (p : β → Bool) :
    (l.map (fun _ => b)).countP p = if p b then l.length else 0 := by
  induction l with
  | nil =>
    cases hp : p b <;> simp [hp]
  | cons a l ih =>
    simp only [List.map_cons, List.countP_cons, ih]
    cases hp : p b <;> simp [hp]

theorem joinRows_count (rows : List Row) (temp : List String) (v : String) :
    rowsWithRsid (duckdbJoinRows rows temp) v = rowsWithRsid rows v * occ temp v := by
  induction rows with
  | nil => simp [duckdbJoinRows, rowsWithRsid]
  | cons r rs ih =>
    simp only [duckdbJoinRows, List.flatMap_cons, rowsWithRsid, List.countP_append,
      List.countP_cons] at ih ⊢
    rw [countP_const_map, ih]
    cases hl : r.lookup "rsid" with
    | none =>
      simp
    | some w =>
      by_cases hwv : w = v
      · subst hwv
        have hocc : (temp.filter (fun x => (some w : Option String) == some x)).length =
            occ temp w := by
          have h2 : temp.filter (fun x => (some w : Option String) == some x) =
              temp.filter (fun x => w == x) := by
            apply List.filter_congr
            intro x hx
            exact rfl
          rw [h2]
          rfl
        simp only [beq_self_eq_true, if_true, hocc, Nat.add_mul, Nat.one_mul]
        omega
      · have hb : ((some w : Option String) == some v) = false := by simp [hwv]
        simp [hb]

theorem mem_filter_rowMatches (rows : List Row) (ids : List String) (r : Row)
    (h : r ∈ rows.filter (rowMatches ids)) :
    ∃ w, r.lookup "rsid" = some w ∧ w ∈ ids := by
  have h2 := (List.mem_filter.mp h).2
  unfold rowMatches at h2
  cases hl : r.lookup "rsid" with
  | none => rw [hl] at h2; cases h2
  | some w =>
    rw [hl] at h2
    exact ⟨w, rfl, List.elem_iff.mp h2⟩

theorem mem_joinRows (rows : List Row) (temp : List String) (r : Row)
    (h : r ∈ duckdbJoinRows rows temp) :
    ∃ w, r.lookup "rsid" = some w ∧ w ∈ temp := by
  unfold duckdbJoinRows at h
  obtain ⟨r0, hr0, hmem⟩ := List.mem_flatMap.mp h
  obtain ⟨x, hx, hrx⟩ := List.mem_map.mp hmem
  subst hrx
  obtain ⟨hxt, hxp⟩ := List.mem_filter.mp hx
  exact ⟨x, eq_of_beq hxp, hxt⟩

theorem filter_beq_of_nodup (l : List String) (w : String) (h : l.Nodup) :
    l.filter (fun x => w == x) = if l.contains w then [w] else [] := by
  induction l with
  | nil => rfl
  | cons a as ih =>
    rw [List.nodup_cons] at h
    obtain ⟨hna, hnas⟩ := h
    by_cases hw : w = a
    · subst hw
      have hfa : as.filter (fun x => w == x) = [] := by
        apply List.filter_eq_nil_iff.mpr
        intro x hx hbx
        exact hna (eq_of_beq hbx ▸ hx)
      simp [List.filter_cons, hfa, List.contains_cons]
    · have hba : (w == a) = false := by simp [hw]
      simp [List.filter_cons, hba, ih hnas, List.contains_cons, hw]

theorem joinRows_eq_filter_of_nodup (rows : List Row) (ids : List String)
    (h : ids.Nodup) :
    duckdbJoinRows rows ids = rows.filter (rowMatches ids) := by
  induction rows with
  | nil => rfl
  | cons r rs ih =>
    simp only [duckdbJoinRows, List.flatMap_cons] at ih ⊢
    cases hl : r.lookup "rsid" with
    | none =>
      have hf : ids.filter (fun x => (none : Option String) == some x) = [] := by
        apply List.filter_eq_nil_iff.mpr
        intro x hx
        simp
      have hm : rowMatches ids r = false := by simp [rowMatches, hl]
      simp [hf, List.filter_cons, hm, hl]
      simpa using ih
    | some w =>
      have hf : ids.filter (fun x => (some w : Option String) == some x) =
          ids.filter (fun x => w == x) := by
        apply List.filter_congr
        intro x hx
        exact rfl
      rw [hf, filter_beq_of_nodup ids w h]
      have hm : rowMatches ids r = ids.contains w := by simp [rowMatches, hl]
      cases hcw : ids.contains w with
      | true =>
        rw [hcw] at hm
        simp [List.filter_cons, hm, hcw]
        simpa using ih
      | false =>
        rw [hcw] at hm
        simp [List.filter_cons, hm, hcw]
        simpa using ih

theorem contains_rsid_of_missing_nil (t : Table) (hmiss : missingColumns t = []) :
    t.columns.contains "rsid" = true := by
  have hmem : "rsid" ∈ REQUIRED_COLUMNS := by simp [REQUIRED_COLUMNS]
  have h2 := List.filter_eq_nil_iff.mp hmiss "rsid" hmem
  cases hb : t.columns.contains "rsid" with
  | true => rfl
  | false => exact absurd (by rw [hb]; rfl) h2

/-- Claim C8: whenever query_gwas returns successfully, the returned table's
column list is exactly the fixed 17-field REQUIRED_COLUMNS schema, in that
order, regardless of the input table's column order, with extra columns
dropped. -/
theorem C8_output_schema (fs : FileSys) (p : String) (ids : List String) (t : Table)
    (h : query_gwas fs p ids = Except.ok t) :
    t.columns = REQUIRED_COLUMNS ∧ REQUIRED_COLUMNS.length = 17 := by
  refine ⟨?_, rfl⟩
  unfold query_gwas at h
  split at h
  · exact Except.noConfusion h
  · unfold query_gwas_ext at h
    split at h
    · exact Except.noConfusion h
    · split at h
      · injection h with h2
        subst h2
        rfl
      · split at h
        · exact Except.noConfusion h
        · split at h
          · exact Except.noConfusion h
          · injection h with h2
            subst h2
            rfl

theorem C8_witness :
    query_gwas (fsOf sampleTable) "g.parquet" ["rs1"] =
      Except.ok (selectColumns REQUIRED_COLUMNS (parquetFilter sampleTable ["rs1"])) ∧
    ((selectColumns REQUIRED_COLUMNS (parquetFilter sampleTable ["rs1"])).columns =
      REQUIRED_COLUMNS ∧ REQUIRED_COLUMNS.length = 17) :=
  ⟨rfl, C8_output_schema (fsOf sampleTable) "g.parquet" ["rs1"] _ rfl⟩

/-- Claim C1 counterexample: on the duckdb backend a duplicated identifier list
produces duplicated output rows: the table holds one rs1 row, the request
lists rs1 twice, and the output holds the row twice — the claimed
multiplicity (equal to the multiplicity in the table) fails. -/
theorem C1_counterexample :
    rowsWithRsid (resultRows (query_gwas (fsOf sampleTable) "g.duckdb"
      ["rs1", "rs1"])) "rs1" = 2 ∧
    rowsWithRsid sampleTable.rows "rs1" = 1 :=
  ⟨rfl, rfl⟩

/-- Claim C1 (amended): every output rsid is an element of the identifier
list on both backends; on the parquet backend each listed identifier keeps
exactly its multiplicity from the table, while on the duckdb backend the
multiplicity is the table multiplicity times the identifier's multiplicity
in the list. -/
theorem C1_filter_multiplicity (t : Table) (ids : List String) (v : String)
    (hids : ids ≠ []) (hmiss : missingColumns t = []) :
    (∀ r ∈ resultRows (query_gwas (fsOf t) "g.parquet" ids),
        ∃ w, r.lookup "rsid" = some w ∧ w ∈ ids) ∧
    (∀ r ∈ resultRows (query_gwas (fsOf t) "g.duckdb" ids),
        ∃ w, r.lookup "rsid" = some w ∧ w ∈ ids) ∧
    (v ∈ ids → rowsWithRsid (resultRows (query_gwas (fsOf t) "g.parquet" ids)) v =
        rowsWithRsid t.rows v) ∧
    rowsWithRsid (resultRows (query_gwas (fsOf t) "g.duckdb" ids)) v =
        rowsWithRsid t.rows v * occ ids v := by
  have hrs := contains_rsid_of_missing_nil t hmiss
  have hq1 := query_parquet_reduce (fsOf t) ids t rfl rfl hids
  have hq2 := query_duckdb_reduce (fsOf t) ids t rfl rfl hids hrs
  rw [hmiss] at hq1 hq2
  simp only [List.isEmpty_nil, Bool.true_eq_false, if_false] at hq1 hq2
  refine ⟨?_, ?_, ?_, ?_⟩
  · intro r hr2
    simp only [hq1, resultRows, selectColumns, parquetFilter, List.mem_map] at hr2
    obtain ⟨r0, hr0, rfl⟩ := hr2
    obtain ⟨w, hw, hmem⟩ := mem_filter_rowMatches t.rows ids r0 hr0
    exact ⟨w, lookup_selectRow_rsid r0 w hw, hmem⟩
  · intro r hr2
    simp only [hq2, resultRows, selectColumns, List.mem_map] at hr2
    obtain ⟨r0, hr0, rfl⟩ := hr2
    obtain ⟨w, hw, hmem⟩ := mem_joinRows t.rows ids r0 hr0
    exact ⟨w, lookup_selectRow_rsid r0 w hw, hmem⟩
  · intro hv
    have hsome : ∀ r ∈ t.rows.filter (rowMatches ids),
        (r.lookup "rsid").isSome = true := by
      intro r hr2
      obtain ⟨w, hw, _⟩ := mem_filter_rowMatches t.rows ids r hr2
      rw [hw]
      rfl
    rw [hq1]
    simp only [resultRows, selectColumns, parquetFilter]
    rw [selectRows_count _ v hsome, filter_count_of_mem t.rows ids v hv]
  · have hsome : ∀ r ∈ duckdbJoinRows t.rows ids,
        (r.lookup "rsid").isSome = true := by
      intro r hr2
      obtain ⟨w, hw, _⟩ := mem_joinRows t.rows ids r hr2
      rw [hw]
      rfl
    rw [hq2]
    simp only [resultRows, selectColumns]
    rw [selectRows_count _ v hsome, joinRows_count t.rows ids v]

theorem C1_witness :
    (["rs1"] ≠ ([] : List String) ∧ missingColumns sampleTable = []) ∧
    ((∀ r ∈ resultRows (query_gwas (fsOf sampleTable) "g.parquet" ["rs1"]),
        ∃ w, r.lookup "rsid" = some w ∧ w ∈ ["rs1"]) ∧
    (∀ r ∈ resultRows (query_gwas (fsOf sampleTable) "g.duckdb" ["rs1"]),
        ∃ w, r.lookup "rsid" = some w ∧ w ∈ ["rs1"]) ∧
    ("rs1" ∈ ["rs1"] →
      rowsWithRsid (resultRows (query_gwas (fsOf sampleTable) "g.parquet" ["rs1"]))
          "rs1" = rowsWithRsid sampleTable.rows "rs1") ∧
    rowsWithRsid (resultRows (query_gwas (fsOf sampleTable) "g.duckdb" ["rs1"]))
        "rs1" = rowsWithRsid sampleTable.rows "rs1" * occ ["rs1"] "rs1") :=
  ⟨⟨by decide, rfl⟩,
    C1_filter_multiplicity sampleTable ["rs1"] "rs1" (by decide) rfl⟩

/-- Claim C2 counterexample: the two backends disagree on a duplicated
identifier list: for the same source table the parquet backend returns the
rs1 row once, the duckdb backend returns it twice. -/
theorem C2_counterexample :
    (resultRows (query_gwas (fsOf sampleTable) "g.parquet" ["rs1", "rs1"])).length = 1 ∧
    (resultRows (query_gwas (fsOf sampleTable) "g.duckdb" ["rs1", "rs1"])).length = 2 :=
  ⟨rfl, rfl⟩

/-- Claim C2 (amended): for a duplicate-free identifier list the two backends
agree exactly — same schema and same rows, matched by exact string equality
on rsid with no case-folding or trimming; with duplicated identifiers the
duckdb backend multiplies row multiplicities while parquet does not. -/
theorem C2_backend_agreement (t : Table) (ids : List String)
    (hids : ids ≠ []) (hmiss : missingColumns t = []) (hnd : ids.Nodup) :
    query_gwas (fsOf t) "g.parquet" ids = query_gwas (fsOf t) "g.duckdb" ids := by
  have hrs := contains_rsid_of_missing_nil t hmiss
  have hq1 := query_parquet_reduce (fsOf t) ids t rfl rfl hids
  have hq2 := query_duckdb_reduce (fsOf t) ids t rfl rfl hids hrs
  rw [hq1, hq2, joinRows_eq_filter_of_nodup t.rows ids hnd]
  exact rfl

theorem C2_witness :
    (["rs1", "rs2"] ≠ ([] : List String) ∧ missingColumns sampleTable = [] ∧
      (["rs1", "rs2"] : List String).Nodup) ∧
    query_gwas (fsOf sampleTable) "g.parquet" ["rs1", "rs2"] =
      query_gwas (fsOf sampleTable) "g.duckdb" ["rs1", "rs2"] :=
  ⟨⟨by decide, rfl, by decide⟩,
    C2_backend_agreement sampleTable ["rs1", "rs2"] (by decide) rfl (by decide)⟩

theorem query_duckdb_binder_error (fs : FileSys) (ids : List String) (t : Table)
    (hp : fs.pathExists = true)
    (htab : fs.duckdbTables = [("associations_clean", t)])
    (hids : ids ≠ []) (hrs : t.columns.contains "rsid" = false) :
    query_gwas fs "g.duckdb" ids =
      Except.error ("Failed to load GWAS file: " ++ binder_error_msg) := by
  have he : strLower (splitextExt "g.duckdb") = ".duckdb" := rfl
  have hc : ([".parquet", ".duckdb"].contains ".duckdb") = true := rfl
  have hres : resolveTable [("associations_clean", t)] = Except.ok t := rfl
  have hnmem : "rsid" ∉ t.columns := by simpa using hrs
  simp [query_gwas, query_gwas_ext, hp, htab, he, hc, isEmpty_false_of_ne_nil ids hids,
    duckdbQueryTraced, hres, duckdbExecJoin, hrs, hnmem]

/-- Environment whose single duckdb table (and parquet table) lacks rsid. -/
def fsNoRsid : FileSys :=
  { pathExists := true, parquetRead := Except.ok tableNoRsid,
    duckdbTables := [("associations_clean", tableNoRsid)] }

/-- Environment whose table has rsid but misses the last required column. -/
def fsMissLast : FileSys :=
  { pathExists := true, parquetRead := Except.ok tableMissLast,
    duckdbTables := [("associations_clean", tableMissLast)] }

/-- Environment whose duckdb file contains zero tables. -/
def fsNoTables : FileSys :=
  { pathExists := true, parquetRead := Except.ok sampleTable, duckdbTables := [] }

/-- Environment in which the path does not exist. -/
def fsAbsent : FileSys :=
  { pathExists := false, parquetRead := Except.ok sampleTable, duckdbTables := [] }

/-- Claim C3 counterexample: on the duckdb backend, dropping the rsid column
does not produce a MissingColumns error naming rsid: the join query fails
first and is re-raised in the LoadFailure category. -/
theorem C3_counterexample :
    query_gwas fsNoRsid "g.duckdb" ["rs1"] =
      Except.error ("Failed to load GWAS file: " ++ binder_error_msg) ∧
    isMissingColumnsMsg ("Failed to load GWAS file: " ++ binder_error_msg) = false ∧
    isLoadFailureMsg ("Failed to load GWAS file: " ++ binder_error_msg) = true :=
  ⟨rfl, rfl, rfl⟩

/-- Claim C3 (amended): on the parquet backend a missing required column is a
MissingColumns error naming the absent columns, raised before the filter runs;
on the duckdb backend the filter join runs during loading, before validation:
a missing rsid surfaces as a LoadFailure from the join, and a missing non-rsid
required column surfaces as MissingColumns only after the join has executed. -/
theorem C3_missing_columns (ids : List String) (fs1 fs2 fs3 : FileSys)
    (tP tD1 tD2 : Table) (hids : ids ≠ [])
    (h1p : fs1.pathExists = true) (h1r : fs1.parquetRead = Except.ok tP)
    (h1m : missingColumns tP ≠ [])
    (h2p : fs2.pathExists = true)
    (h2t : fs2.duckdbTables = [("associations_clean", tD1)])
    (h2rs : tD1.columns.contains "rsid" = false)
    (h3p : fs3.pathExists = true)
    (h3t : fs3.duckdbTables = [("associations_clean", tD2)])
    (h3rs : tD2.columns.contains "rsid" = true)
    (h3m : missingColumns tD2 ≠ []) :
    query_gwas fs1 "g.parquet" ids =
      Except.error ("Missing required columns: " ++
        String.intercalate ", " (missingColumns tP)) ∧
    query_gwas fs2 "g.duckdb" ids =
      Except.error ("Failed to load GWAS file: " ++ binder_error_msg) ∧
    query_gwas fs3 "g.duckdb" ids =
      Except.error ("Missing required columns: " ++
        String.intercalate ", " (missingColumns tD2)) := by
  refine ⟨?_, ?_, ?_⟩
  · rw [query_parquet_reduce fs1 ids tP h1p h1r hids,
      if_pos (isEmpty_false_of_ne_nil _ h1m)]
  · exact query_duckdb_binder_error fs2 ids tD1 h2p h2t hids h2rs
  · rw [query_duckdb_reduce fs3 ids tD2 h3p h3t hids h3rs,
      if_pos (isEmpty_false_of_ne_nil _ h3m)]

theorem C3_witness :
    ((["rs1"] ≠ ([] : List String)) ∧
      fsMissLast.pathExists = true ∧ fsMissLast.parquetRead = Except.ok tableMissLast ∧
      missingColumns tableMissLast ≠ [] ∧
      fsNoRsid.pathExists = true ∧
      fsNoRsid.duckdbTables = [("associations_clean", tableNoRsid)] ∧
      tableNoRsid.columns.contains "rsid" = false ∧
      fsMissLast.duckdbTables = [("associations_clean", tableMissLast)] ∧
      tableMissLast.columns.contains "rsid" = true) ∧
    (query_gwas fsMissLast "g.parquet" ["rs1"] =
      Except.error ("Missing required columns: " ++
        String.intercalate ", " (missingColumns tableMissLast)) ∧
    query_gwas fsNoRsid "g.duckdb" ["rs1"] =
      Except.error ("Failed to load GWAS file: " ++ binder_error_msg) ∧
    query_gwas fsMissLast "g.duckdb" ["rs1"] =
      Except.error ("Missing required columns: " ++
        String.intercalate ", " (missingColumns tableMissLast))) :=
  ⟨⟨by decide, rfl, rfl, by decide, rfl, rfl, rfl, rfl, rfl⟩,
    C3_missing_columns ["rs1"] fsMissLast fsNoRsid fsMissLast
      tableMissLast tableNoRsid tableMissLast (by decide)
      rfl rfl (by decide) rfl rfl rfl rfl rfl rfl (by decide)⟩

/-- The identifier list the source would have to ship in more than one INSERT. -/
def bigIds : List String := List.replicate (chunk_size + 1) "rs0"

/-- Claim C4: the duckdb backend materializes the identifier list into the
temp table in chunks of at most 50000 (each chunk nonempty, their
concatenation the whole list, more than one chunk as soon as the list
exceeds the batch size), and the join query computes the inner join of the
association table with exactly that identifier list. -/
theorem C4_duckdb_batching (ids : List String) (t : Table)
    (h : t.columns.contains "rsid" = true) :
    (∀ c ∈ chunkRsids ids, c.length ≤ chunk_size ∧ c ≠ []) ∧
    (chunkRsids ids).flatten = ids ∧
    (chunk_size < ids.length → 2 ≤ (chunkRsids ids).length) ∧
    duckdbExecJoin t ((chunkRsids ids).flatten) =
      Except.ok { columns := t.columns, rows := duckdbJoinRows t.rows ids } := by
  refine ⟨chunksAux_mem_bound ids.length ids (Nat.le_refl _), chunkRsids_flatten ids,
    fun hbig => chunksAux_two_le ids.length ids (Nat.le_refl _) hbig, ?_⟩
  rw [chunkRsids_flatten]
  unfold duckdbExecJoin
  rw [if_pos h]

theorem C4_witness :
    (sampleTable.columns.contains "rsid" = true ∧ chunk_size < bigIds.length) ∧
    ((∀ c ∈ chunkRsids bigIds, c.length ≤ chunk_size ∧ c ≠ []) ∧
    (chunkRsids bigIds).flatten = bigIds ∧
    (chunk_size < bigIds.length → 2 ≤ (chunkRsids bigIds).length) ∧
    duckdbExecJoin sampleTable ((chunkRsids bigIds).flatten) =
      Except.ok (Table.mk sampleTable.columns (duckdbJoinRows sampleTable.rows bigIds))) :=
  ⟨⟨rfl, by simp [bigIds]⟩,
    C4_duckdb_batching bigIds sampleTable rfl⟩

/-- Claim C5 counterexample: with zero tables the call does fail, but the
error the caller sees is not in the NoTablesFound category: the internal
NoTablesFound raise is caught by the catch-all handler and re-raised with
the LoadFailure prefix. -/
theorem C5_counterexample :
    query_gwas fsNoTables "g.duckdb" ["rs1"] =
      Except.error "Failed to load GWAS file: No tables found in DuckDB file." ∧
    isNoTablesFoundMsg "Failed to load GWAS file: No tables found in DuckDB file." = false ∧
    isLoadFailureMsg "Failed to load GWAS file: No tables found in DuckDB file." = true :=
  ⟨rfl, rfl, rfl⟩

/-- Claim C5 (amended): the duckdb backend prefers a table literally named
associations_clean, otherwise the first listed table, and the query outcome
depends on the table listing only through the resolved table; with zero
tables the call fails, but the NoTablesFound message reaches the caller
wrapped in the LoadFailure category rather than as its own category. -/
theorem C5_table_resolution (fs fs0 : FileSys) (ids : List String) (t tA tB : Table)
    (hp : fs.pathExists = true) (hids : ids ≠ [])
    (hres : resolveTable fs.duckdbTables = Except.ok t)
    (h0p : fs0.pathExists = true) (h0t : fs0.duckdbTables = []) :
    query_gwas fs "g.duckdb" ids =
      query_gwas (FileSys.mk true fs.parquetRead [("associations_clean", t)])
        "g.duckdb" ids ∧
    resolveTable [("associations_clean", tA), ("some_other", tB)] = Except.ok tA ∧
    resolveTable [("some_other", tB)] = Except.ok tB ∧
    query_gwas fs0 "g.duckdb" ids =
      Except.error "Failed to load GWAS file: No tables found in DuckDB file." := by
  have he : strLower (splitextExt "g.duckdb") = ".duckdb" := rfl
  have hc : ([".parquet", ".duckdb"].contains ".duckdb") = true := rfl
  refine ⟨?_, rfl, rfl, ?_⟩
  · have hres2 : resolveTable [("associations_clean", t)] = Except.ok t := rfl
    simp [query_gwas, query_gwas_ext, hp, he, hc, isEmpty_false_of_ne_nil ids hids,
      duckdbQueryTraced, hres, hres2]
  · simp [query_gwas, query_gwas_ext, h0p, h0t, he, hc,
      isEmpty_false_of_ne_nil ids hids, duckdbQueryTraced, resolveTable]

theorem C5_witness :
    ((fsOf sampleTable).pathExists = true ∧ (["rs1"] ≠ ([] : List String)) ∧
      resolveTable (fsOf sampleTable).duckdbTables = Except.ok sampleTable ∧
      fsNoTables.pathExists = true ∧ fsNoTables.duckdbTables = []) ∧
    (query_gwas (fsOf sampleTable) "g.duckdb" ["rs1"] =
      query_gwas (FileSys.mk true (fsOf sampleTable).parquetRead
        [("associations_clean", sampleTable)]) "g.duckdb" ["rs1"] ∧
    resolveTable [("associations_clean", sampleTable), ("some_other", tableNoRsid)] =
      Except.ok sampleTable ∧
    resolveTable [("some_other", tableNoRsid)] = Except.ok tableNoRsid ∧
    query_gwas fsNoTables "g.duckdb" ["rs1"] =
      Except.error "Failed to load GWAS file: No tables found in DuckDB file.") :=
  ⟨⟨rfl, by decide, rfl, rfl, rfl⟩,
    C5_table_resolution (fsOf sampleTable) fsNoTables ["rs1"]
      sampleTable sampleTable tableNoRsid rfl (by decide) rfl rfl rfl⟩

/-- Claim C6: with an existing source of recognized extension and an empty
identifier list, query_gwas returns zero rows with exactly the 17-column
required schema, for both backends, with no schema validation of the
underlying data (the environment's tables are never consulted). -/
theorem C6_empty_list_fast_path (fs : FileSys) (p : String) (ids : List String)
    (hp : fs.pathExists = true)
    (hext : ([".parquet", ".duckdb"].contains (strLower (splitextExt p))) = true)
    (hids : ids = []) :
    query_gwas fs p ids = Except.ok { columns := REQUIRED_COLUMNS, rows := [] } ∧
    REQUIRED_COLUMNS.length = 17 := by
  subst hids
  refine ⟨?_, rfl⟩
  unfold query_gwas query_gwas_ext
  rw [hp, hext]
  simp

theorem C6_witness :
    (fsNoRsid.pathExists = true ∧
      ([".parquet", ".duckdb"].contains (strLower (splitextExt "g.parquet"))) = true ∧
      ([] : List String) = [] ∧ missingColumns tableNoRsid ≠ []) ∧
    (query_gwas fsNoRsid "g.parquet" [] =
      Except.ok { columns := REQUIRED_COLUMNS, rows := [] } ∧
      REQUIRED_COLUMNS.length = 17) :=
  ⟨⟨rfl, rfl, rfl, by decide⟩,
    C6_empty_list_fast_path fsNoRsid "g.parquet" [] rfl rfl rfl⟩

/-- Claim C7 counterexample: a nonexistent path with a .txt extension fails
with the NotFound message, not UnsupportedFormat — the existence check runs
first, so the unsupported-extension error is not independent of existence. -/
theorem C7_counterexample :
    query_gwas fsAbsent "data.txt" ["rs1"] =
      Except.error "File does not exist: data.txt" ∧
    isUnsupportedFormatMsg "File does not exist: data.txt" = false ∧
    isNotFoundMsg "File does not exist: data.txt" = true :=
  ⟨rfl, rfl, rfl⟩

/-- Claim C7 (amended): for every existing path whose lower-cased extension is
not .parquet or .duckdb, query_gwas fails with the UnsupportedFormat error,
independently of file content and of the identifier list; for nonexistent
paths the NotFound check fires first. -/
theorem C7_unsupported_extension (fs : FileSys) (p : String) (ids : List String)
    (hp : fs.pathExists = true)
    (hext : ([".parquet", ".duckdb"].contains (strLower (splitextExt p))) = false) :
    query_gwas fs p ids =
      Except.error ("Unsupported file type: " ++ strLower (splitextExt p) ++
        ". Only .parquet and .duckdb are supported.") := by
  unfold query_gwas query_gwas_ext
  rw [hp, hext]
  simp

theorem C7_witness :
    ((fsOf sampleTable).pathExists = true ∧
      ([".parquet", ".duckdb"].contains (strLower (splitextExt "data.txt"))) = false) ∧
    query_gwas (fsOf sampleTable) "data.txt" ["rs1"] =
      Except.error ("Unsupported file type: " ++ strLower (splitextExt "data.txt") ++
        ". Only .parquet and .duckdb are supported.") :=
  ⟨⟨rfl, rfl⟩, C7_unsupported_extension (fsOf sampleTable) "data.txt" ["rs1"] rfl rfl⟩

/-- Claim C9, evaluated at the failing input: with a zero-table duckdb file
the backend raises after the connection was opened and con.close() is never
reached (connClosed = false when control leaves the block), while a
successful call does close the connection; the wrapped error still escapes
to the caller of query_gwas. -/
theorem C9_connection_leak :
    (duckdbQueryTraced [] ["rs1"]).connClosed = false ∧
    (duckdbQueryTraced [] ["rs1"]).result =
      Except.error "No tables found in DuckDB file." ∧
    (duckdbQueryTraced [("associations_clean", sampleTable)] ["rs1"]).connClosed = true ∧
    (duckdbQueryTraced [("associations_clean", tableNoRsid)] ["rs1"]).connClosed = false ∧
    query_gwas fsNoTables "g.duckdb" ["rs1"] =
      Except.error "Failed to load GWAS file: No tables found in DuckDB file." :=
  ⟨rfl, rfl, rfl, rfl, rfl⟩

/-- Claim C10: the extension check lower-cases the splitext extension, so
upper- and mixed-case variants of the recognized extensions behave exactly
like their lower-case forms and are dispatched to the same backend. -/
theorem C10_case_insensitive_ext (fs : FileSys) (ids : List String)
    (hp : fs.pathExists = true) :
    query_gwas fs "data.PARQUET" ids = query_gwas fs "data.parquet" ids ∧
    query_gwas fs "data.DuckDB" ids = query_gwas fs "data.duckdb" ids ∧
    strLower (splitextExt "dir/data.PARQUET") = ".parquet" ∧
    strLower (splitextExt "data.DuckDB") = ".duckdb" := by
  refine ⟨?_, ?_, rfl, rfl⟩
  · have e1 : strLower (splitextExt "data.PARQUET") = ".parquet" := rfl
    have e2 : strLower (splitextExt "data.parquet") = ".parquet" := rfl
    simp [query_gwas, hp, e1, e2]
  · have e3 : strLower (splitextExt "data.DuckDB") = ".duckdb" := rfl
    have e4 : strLower (splitextExt "data.duckdb") = ".duckdb" := rfl
    simp [query_gwas, hp, e3, e4]

theorem C10_witness :
    (fsOf sampleTable).pathExists = true ∧
    (query_gwas (fsOf sampleTable) "data.PARQUET" ["rs1"] =
      query_gwas (fsOf sampleTable) "data.parquet" ["rs1"] ∧
    query_gwas (fsOf sampleTable) "data.DuckDB" ["rs1"] =
      query_gwas (fsOf sampleTable) "data.duckdb" ["rs1"] ∧
    strLower (splitextExt "dir/data.PARQUET") = ".parquet" ∧
    strLower (splitextExt "data.DuckDB") = ".duckdb") :=
  ⟨rfl, C10_case_insensitive_ext (fsOf sampleTable) ["rs1"] rfl⟩

